import Mathlib

/-!
Verification of the core logic of the kti tool (src/main.rs): the magic-number
signature detector (get_correct_extension, lines 208-242) and the extension
mismatch policy (different_extensions, lines 259-270), together with the
sentinel strings produced in main (lines 89-110).

Bytes are modelled as natural numbers and a file's leading buffer as a list of
bytes. The Rust slice patterns of the detector become leading-byte checks; the
two guarded container rules (RIFF and ftyp) become explicit length-plus-range
checks, exactly as in the source.
-/

namespace Kti

/-- Checks that the buffer begins with the given byte pattern: the translation
of a Rust slice pattern such as [0x47, 0x49, ..] that names its first bytes
and ends with a rest pattern. An empty pattern matches every buffer; a
non-empty pattern never matches a shorter buffer. -/
def startsWithBytes : List Nat → List Nat → Bool
  | [], _ => true
  | _ :: _, [] => false
  | p :: ps, b :: bs => (b == p) && startsWithBytes ps bs

/-- The sub-list of the buffer from index a (inclusive) to b (exclusive):
the total model of the Rust range index buf[a..b], used only under a length
guard in the source. -/
def sliceL (buf : List Nat) (a b : Nat) : List Nat :=
  (buf.drop a).take (b - a)

/-- The checked model of the Rust range index buf[a..b]: none models the
out-of-bounds panic (a > b or b > buf.len()). -/
def sliceChecked (buf : List Nat) (a b : Nat) : Option (List Nat) :=
  if a ≤ b ∧ b ≤ buf.length then some (sliceL buf a b) else none

/-- main.rs line 214: the two gif signatures GIF87a and GIF89a. -/
def isGif (buf : List Nat) : Bool :=
  startsWithBytes [0x47, 0x49, 0x46, 0x38, 0x37, 0x61] buf ||
  startsWithBytes [0x47, 0x49, 0x46, 0x38, 0x39, 0x61] buf

/-- main.rs line 217: the four mp3 signatures. -/
def isMp3 (buf : List Nat) : Bool :=
  startsWithBytes [0xFF, 0xFB] buf || startsWithBytes [0xFF, 0xF3] buf ||
  startsWithBytes [0xFF, 0xF2] buf || startsWithBytes [0x49, 0x44, 0x33] buf

/-- main.rs line 220: the png signature. -/
def isPng (buf : List Nat) : Bool :=
  startsWithBytes [0x89, 0x50, 0x4E, 0x47, 0x0D, 0x0A, 0x1A, 0x0A] buf

/-- main.rs line 221: the pdf signature. -/
def isPdf (buf : List Nat) : Bool :=
  startsWithBytes [0x25, 0x50, 0x44, 0x46, 0x2D] buf

/-- main.rs line 222: the ogg signature. -/
def isOgg (buf : List Nat) : Bool :=
  startsWithBytes [0x4F, 0x67, 0x67, 0x53] buf

/-- main.rs line 223: the mkv signature. -/
def isMkv (buf : List Nat) : Bool :=
  startsWithBytes [0x1A, 0x45, 0xDF, 0xA3] buf

/-- main.rs line 224: the flac signature. -/
def isFlac (buf : List Nat) : Bool :=
  startsWithBytes [0x66, 0x4C, 0x61, 0x43] buf

/-- main.rs line 225: the jpg signature. -/
def isJpg (buf : List Nat) : Bool :=
  startsWithBytes [0xFF, 0xD8, 0xFF] buf

/-- Disjunction of the eight literal leading-byte rules (priorities 1 to 8 of
the signature table), in source order. -/
def literalMatch (buf : List Nat) : Bool :=
  isGif buf || isMp3 buf || isPng buf || isPdf buf ||
  isOgg buf || isMkv buf || isFlac buf || isJpg buf

/-- The bytes of the ASCII literal RIFF. -/
def riffTag : List Nat := [0x52, 0x49, 0x46, 0x46]

/-- The bytes of the ASCII literal WEBP. -/
def webpTag : List Nat := [0x57, 0x45, 0x42, 0x50]

/-- The bytes of the ASCII literal WAVE. -/
def waveTag : List Nat := [0x57, 0x41, 0x56, 0x45]

/-- The bytes of the ASCII literal ftyp. -/
def ftypTag : List Nat := [0x66, 0x74, 0x79, 0x70]

/-- main.rs lines 226-230, inner dispatch of the RIFF rule on bytes 8..12:
WEBP gives webp, WAVE gives wav, anything else gives none. -/
def riffInner (t : List Nat) : Option String :=
  if t = webpTag then some "webp"
  else if t = waveTag then some "wav"
  else none

/-- main.rs lines 231-237, inner dispatch of the ftyp rule on bytes 8..12:
qt-space-space gives mov, the eight mp4 brands give mp4, anything else none. -/
def ftypInner (t : List Nat) : Option String :=
  if t = [0x71, 0x74, 0x20, 0x20] then some "mov"
  else if t = [0x61, 0x76, 0x63, 0x31] ∨ t = [0x69, 0x73, 0x6F, 0x6D] ∨
      t = [0x6D, 0x6D, 0x70, 0x34] ∨ t = [0x6D, 0x70, 0x34, 0x31] ∨
      t = [0x6D, 0x70, 0x34, 0x32] ∨ t = [0x6D, 0x70, 0x37, 0x31] ∨
      t = [0x6D, 0x73, 0x6E, 0x76] ∨ t = [0x4D, 0x34, 0x56, 0x20] then some "mp4"
  else none

/-- The signature detector: the match expression of get_correct_extension
(main.rs lines 213-239) on the buffer of bytes actually read. Arms are tried
in source order and the first whose pattern and guard hold wins; the two
container rules additionally require length at least 12 before comparing the
ranges 0..4 (RIFF) respectively 4..8 (ftyp), then dispatch on bytes 8..12.
none models the Rust None (no signature matched). -/
def detect (buf : List Nat) : Option String :=
  if isGif buf then some "gif"
  else if isMp3 buf then some "mp3"
  else if isPng buf then some "png"
  else if isPdf buf then some "pdf"
  else if isOgg buf then some "ogg"
  else if isMkv buf then some "mkv"
  else if isFlac buf then some "flac"
  else if isJpg buf then some "jpg"
  else if 12 ≤ buf.length ∧ sliceL buf 0 4 = riffTag then riffInner (sliceL buf 8 12)
  else if 12 ≤ buf.length ∧ sliceL buf 4 8 = ftypTag then ftypInner (sliceL buf 8 12)
  else none

/-- The detector with every Rust range index replaced by its checked model:
an outer none would be an out-of-bounds panic. The source guards evaluate
left to right, so a range is only indexed once length at least 12 is known;
the buf[4..8] index of the ftyp guard is reached exactly when the length test
passed and the RIFF comparison failed. -/
def detectChecked (buf : List Nat) : Option (Option String) :=
  if isGif buf then some (some "gif")
  else if isMp3 buf then some (some "mp3")
  else if isPng buf then some (some "png")
  else if isPdf buf then some (some "pdf")
  else if isOgg buf then some (some "ogg")
  else if isMkv buf then some (some "mkv")
  else if isFlac buf then some (some "flac")
  else if isJpg buf then some (some "jpg")
  else if 12 ≤ buf.length then
    (sliceChecked buf 0 4).bind (fun s =>
      if s = riffTag then (sliceChecked buf 8 12).map riffInner
      else (sliceChecked buf 4 8).bind (fun u =>
        if u = ftypTag then (sliceChecked buf 8 12).map ftypInner
        else some none))
  else some none

/-- Substring test on character lists: the model of Rust str::contains with a
string pattern (case sensitive, contiguous). -/
def containsSub (pat l : List Char) : Bool :=
  match l with
  | [] => pat.isEmpty
  | _ :: ls => startsWithChars pat l || containsSub pat ls
where
  /-- The pattern is a leading segment of the list. -/
  startsWithChars : List Char → List Char → Bool
    | [], _ => true
    | _ :: _, [] => false
    | p :: ps, c :: cs => (c == p) && startsWithChars ps cs

/-- Rust str::contains on strings, via their character lists. -/
def strContains (s pat : String) : Bool :=
  containsSub pat.data s.data

/-- The mismatch policy, main.rs lines 259-270: a detected string containing
No or Err is never a difference; current jpeg with detected jpg is not a
difference; equal strings are not a difference; everything else is. -/
def different_extensions (current detected : String) : Bool :=
  if strContains detected "No" || strContains detected "Err" then false
  else if current = "jpeg" ∧ detected = "jpg" then false
  else if current = detected then false
  else true

/-- main.rs lines 89-98: the current-extension string shown for a file, with
the sentinel used when the path has no extension (uncolored branch). -/
def currentExtensionDisplay : Option String → String
  | some ext => ext
  | none => "No extension"

/-- main.rs lines 100-110: the detected-extension string, reducing the result
of get_correct_extension to a string (uncolored branch): a detected extension
is shown as itself, no match as the sentinel, and a read error as the display
text of the error. -/
def detectedExtensionDisplay : Except String (Option String) → String
  | Except.ok (some ext) => ext
  | Except.ok none => "Not detected"
  | Except.error e => e

/-- Helper: a successful RIFF inner dispatch is webp or wav. -/
theorem riffInner_range (t : List Nat) (e : String) (h : riffInner t = some e) :
    e = "webp" ∨ e = "wav" := by
  unfold riffInner at h
  split at h
  · exact Or.inl (Option.some.inj h).symm
  split at h
  · exact Or.inr (Option.some.inj h).symm
  exact Option.noConfusion h

/-- Helper: a successful ftyp inner dispatch is mov or mp4. -/
theorem ftypInner_range (t : List Nat) (e : String) (h : ftypInner t = some e) :
    e = "mov" ∨ e = "mp4" := by
  unfold ftypInner at h
  split at h
  · exact Or.inl (Option.some.inj h).symm
  split at h
  · exact Or.inr (Option.some.inj h).symm
  exact Option.noConfusion h

/-- Helper: every successful detection is one of the twelve table extensions. -/
theorem detect_range (buf : List Nat) (e : String) (h : detect buf = some e) :
    e = "gif" ∨ e = "mp3" ∨ e = "png" ∨ e = "pdf" ∨ e = "ogg" ∨ e = "mkv" ∨
    e = "flac" ∨ e = "jpg" ∨ e = "webp" ∨ e = "wav" ∨ e = "mov" ∨ e = "mp4" := by
  unfold detect at h
  split at h
  · obtain rfl := Option.some.inj h; decide
  split at h
  · obtain rfl := Option.some.inj h; decide
  split at h
  · obtain rfl := Option.some.inj h; decide
  split at h
  · obtain rfl := Option.some.inj h; decide
  split at h
  · obtain rfl := Option.some.inj h; decide
  split at h
  · obtain rfl := Option.some.inj h; decide
  split at h
  · obtain rfl := Option.some.inj h; decide
  split at h
  · obtain rfl := Option.some.inj h; decide
  split at h
  · rcases riffInner_range _ _ h with rfl | rfl <;> decide
  split at h
  · rcases ftypInner_range _ _ h with rfl | rfl <;> decide
  exact Option.noConfusion h

/-- Helper: once the eight literal leading-byte rules all fail, detect is the
two container rules followed by the default none. -/
theorem detect_container (buf : List Nat) (hlit : literalMatch buf = false) :
    detect buf =
      (if 12 ≤ buf.length ∧ sliceL buf 0 4 = riffTag then riffInner (sliceL buf 8 12)
       else if 12 ≤ buf.length ∧ sliceL buf 4 8 = ftypTag then ftypInner (sliceL buf 8 12)
       else none) := by
  simp only [literalMatch, Bool.or_eq_false_iff] at hlit
  obtain ⟨⟨⟨⟨⟨⟨⟨h1, h2⟩, h3⟩, h4⟩, h5⟩, h6⟩, h7⟩, h8⟩ := hlit
  simp only [detect, h1, h2, h3, h4, h5, h6, h7, h8, Bool.false_eq_true, if_false]

/-- Claim C7: the policy never reports a file whose current extension equals
the detected extension: different_extensions x x is false for every string x. -/
theorem different_extensions_self (x : String) : different_extensions x x = false := by
  unfold different_extensions
  split_ifs with h1 h2 h3
  · rfl
  · rfl
  · rfl
  · exact absurd rfl h3

theorem different_extensions_self_witness : different_extensions "txt" "txt" = false :=
  different_extensions_self "txt"

/-- Claim C6: the jpeg and jpg alias is special-cased in one direction only:
current jpeg with detected jpg is no difference, current jpg with detected
jpeg is a difference. -/
theorem jpeg_jpg_asymmetric :
    different_extensions "jpeg" "jpg" = false ∧
    different_extensions "jpg" "jpeg" = true := by
  constructor <;> decide

/-- Claim C8: the buffer 00 01 02 03 matches no signature, its display is the
sentinel Not detected, and the policy reports no difference for it against
any current extension. -/
theorem unknown_never_different :
    detect [0x00, 0x01, 0x02, 0x03] = none ∧
    ∀ x : String,
      different_extensions x
        (detectedExtensionDisplay (Except.ok (detect [0x00, 0x01, 0x02, 0x03]))) = false ∧
      different_extensions x "Not detected" = false := by
  have key : ∀ x : String, different_extensions x "Not detected" = false := by
    intro x
    unfold different_extensions
    rw [show strContains "Not detected" "No" = true from by decide]
    simp
  exact ⟨by decide, fun x => ⟨key x, key x⟩⟩

theorem unknown_never_different_witness :
    different_extensions "png" "Not detected" = false :=
  (unknown_never_different.2 "png").2

/-- Claim C1 (failing input): a read error whose display text is the standard
permission-denied message contains neither No nor Err, so the policy counts
it as a difference and main renames the file, contradicting the stated
treatment of read failures as do-nothing. -/
theorem read_error_counted_as_difference :
    different_extensions "txt"
      (detectedExtensionDisplay (Except.error "Permission denied (os error 13)")) = true := by
  decide

/-- Claim C2: every buffer whose leading bytes equal one of the twelve literal
signature patterns of priorities 1 to 8 detects as the associated extension,
whatever the trailing bytes; and the concrete twelve-byte png header vector
detects as png. -/
theorem detect_literal_signatures (rest : List Nat) :
    detect ([0x47, 0x49, 0x46, 0x38, 0x37, 0x61] ++ rest) = some "gif" ∧
    detect ([0x47, 0x49, 0x46, 0x38, 0x39, 0x61] ++ rest) = some "gif" ∧
    detect ([0xFF, 0xFB] ++ rest) = some "mp3" ∧
    detect ([0xFF, 0xF3] ++ rest) = some "mp3" ∧
    detect ([0xFF, 0xF2] ++ rest) = some "mp3" ∧
    detect ([0x49, 0x44, 0x33] ++ rest) = some "mp3" ∧
    detect ([0x89, 0x50, 0x4E, 0x47, 0x0D, 0x0A, 0x1A, 0x0A] ++ rest) = some "png" ∧
    detect ([0x25, 0x50, 0x44, 0x46, 0x2D] ++ rest) = some "pdf" ∧
    detect ([0x4F, 0x67, 0x67, 0x53] ++ rest) = some "ogg" ∧
    detect ([0x1A, 0x45, 0xDF, 0xA3] ++ rest) = some "mkv" ∧
    detect ([0x66, 0x4C, 0x61, 0x43] ++ rest) = some "flac" ∧
    detect ([0xFF, 0xD8, 0xFF] ++ rest) = some "jpg" ∧
    detect [0x89, 0x50, 0x4E, 0x47, 0x0D, 0x0A, 0x1A, 0x0A, 0x00, 0x00, 0x00, 0x0D] = some "png" := by
  refine ⟨?_, ?_, ?_, ?_, ?_, ?_, ?_, ?_, ?_, ?_, ?_, ?_, by decide⟩ <;>
    simp [detect, isGif, isMp3, isPng, isPdf, isOgg, isMkv, isFlac, isJpg, startsWithBytes]

theorem detect_literal_signatures_witness :
    detect ([0x47, 0x49, 0x46, 0x38, 0x37, 0x61] ++ [0x00]) = some "gif" :=
  (detect_literal_signatures [0x00]).1

/-- Claim C3: on any buffer of length at least 12 whose bytes 0..4 are RIFF,
detect dispatches on bytes 8..12: WEBP gives webp, WAVE gives wav, and any
other inner tag gives none, regardless of what a later rule would say. -/
theorem detect_riff_rule (buf : List Nat) (hlen : 12 ≤ buf.length)
    (hriff : sliceL buf 0 4 = riffTag) :
    detect buf =
      (if sliceL buf 8 12 = webpTag then some "webp"
       else if sliceL buf 8 12 = waveTag then some "wav"
       else none) := by
  have hlit : literalMatch buf = false := by
    rcases buf with _ | ⟨a, buf⟩
    · simp at hlen
    rcases buf with _ | ⟨b, buf⟩
    · simp at hlen
    rcases buf with _ | ⟨c, buf⟩
    · simp at hlen
    rcases buf with _ | ⟨d, tl⟩
    · simp at hlen
    have h4 : ([a, b, c, d] : List Nat) = riffTag := hriff
    obtain ⟨rfl, rfl, rfl, rfl⟩ : a = 0x52 ∧ b = 0x49 ∧ c = 0x46 ∧ d = 0x46 := by
      simpa [riffTag] using h4
    simp [literalMatch, isGif, isMp3, isPng, isPdf, isOgg, isMkv, isFlac, isJpg, startsWithBytes]
  rw [detect_container buf hlit, if_pos ⟨hlen, hriff⟩]
  rfl

theorem detect_riff_rule_witness :
    detect [0x52, 0x49, 0x46, 0x46, 0x00, 0x00, 0x00, 0x00, 0x57, 0x45, 0x42, 0x50] = some "webp" ∧
    detect [0x52, 0x49, 0x46, 0x46, 0x66, 0x74, 0x79, 0x70, 0x6D, 0x70, 0x34, 0x32] = none := by
  constructor
  · rw [detect_riff_rule [0x52, 0x49, 0x46, 0x46, 0x00, 0x00, 0x00, 0x00, 0x57, 0x45, 0x42, 0x50]
      (by decide) (by decide)]
    decide
  · rw [detect_riff_rule [0x52, 0x49, 0x46, 0x46, 0x66, 0x74, 0x79, 0x70, 0x6D, 0x70, 0x34, 0x32]
      (by decide) (by decide)]
    decide

/-- Claim C4: on any buffer of length at least 12 whose bytes 4..8 are ftyp
and on which no earlier rule fired (no literal rule matched and bytes 0..4
are not RIFF), detect dispatches on bytes 8..12: qt-space-space gives mov,
the eight listed brands give mp4, and any other inner tag gives none. -/
theorem detect_ftyp_rule (buf : List Nat) (hlen : 12 ≤ buf.length)
    (hftyp : sliceL buf 4 8 = ftypTag) (hlit : literalMatch buf = false)
    (hriff : sliceL buf 0 4 ≠ riffTag) :
    detect buf =
      (if sliceL buf 8 12 = [0x71, 0x74, 0x20, 0x20] then some "mov"
       else if sliceL buf 8 12 = [0x61, 0x76, 0x63, 0x31] ∨ sliceL buf 8 12 = [0x69, 0x73, 0x6F, 0x6D] ∨
           sliceL buf 8 12 = [0x6D, 0x6D, 0x70, 0x34] ∨ sliceL buf 8 12 = [0x6D, 0x70, 0x34, 0x31] ∨
           sliceL buf 8 12 = [0x6D, 0x70, 0x34, 0x32] ∨ sliceL buf 8 12 = [0x6D, 0x70, 0x37, 0x31] ∨
           sliceL buf 8 12 = [0x6D, 0x73, 0x6E, 0x76] ∨ sliceL buf 8 12 = [0x4D, 0x34, 0x56, 0x20] then
         some "mp4"
       else none) := by
  have hno : ¬(12 ≤ buf.length ∧ sliceL buf 0 4 = riffTag) := fun hc => hriff hc.2
  rw [detect_container buf hlit, if_neg hno, if_pos ⟨hlen, hftyp⟩]
  rfl

theorem detect_ftyp_rule_witness :
    detect [0x00, 0x00, 0x00, 0x20, 0x66, 0x74, 0x79, 0x70, 0x6D, 0x70, 0x34, 0x32] = some "mp4" := by
  rw [detect_ftyp_rule [0x00, 0x00, 0x00, 0x20, 0x66, 0x74, 0x79, 0x70, 0x6D, 0x70, 0x34, 0x32]
    (by decide) (by decide) (by decide) (by decide)]
  decide

/-- Claim C5: a buffer shorter than a rule's required byte range never matches
that rule: a leading-byte pattern never matches a shorter buffer, the two
container guards never hold below length 12, and the detector with checked
range indexing never reaches an out-of-bounds index and agrees with detect on
every buffer. -/
theorem short_buffer_safe :
    (∀ pat buf : List Nat, buf.length < pat.length → startsWithBytes pat buf = false) ∧
    (∀ buf : List Nat, buf.length < 12 →
      ¬(12 ≤ buf.length ∧ sliceL buf 0 4 = riffTag) ∧
      ¬(12 ≤ buf.length ∧ sliceL buf 4 8 = ftypTag)) ∧
    (∀ buf : List Nat, detectChecked buf = some (detect buf)) := by
  refine ⟨?_, ?_, ?_⟩
  · intro pat
    induction pat with
    | nil => intro buf h; simp at h
    | cons p ps ih =>
      intro buf h
      cases buf with
      | nil => rfl
      | cons b bs =>
        have hb : bs.length < ps.length := by
          simp only [List.length_cons] at h
          omega
        simp [startsWithBytes, ih bs hb]
  · intro buf h
    constructor
    · rintro ⟨h12, -⟩
      omega
    · rintro ⟨h12, -⟩
      omega
  · intro buf
    by_cases h1 : isGif buf = true
    · simp [detect, detectChecked, h1]
    by_cases h2 : isMp3 buf = true
    · simp [detect, detectChecked, h1, h2]
    by_cases h3 : isPng buf = true
    · simp [detect, detectChecked, h1, h2, h3]
    by_cases h4 : isPdf buf = true
    · simp [detect, detectChecked, h1, h2, h3, h4]
    by_cases h5 : isOgg buf = true
    · simp [detect, detectChecked, h1, h2, h3, h4, h5]
    by_cases h6 : isMkv buf = true
    · simp [detect, detectChecked, h1, h2, h3, h4, h5, h6]
    by_cases h7 : isFlac buf = true
    · simp [detect, detectChecked, h1, h2, h3, h4, h5, h6, h7]
    by_cases h8 : isJpg buf = true
    · simp [detect, detectChecked, h1, h2, h3, h4, h5, h6, h7, h8]
    by_cases hlen : 12 ≤ buf.length
    · have s04 : sliceChecked buf 0 4 = some (sliceL buf 0 4) := by
        simp [sliceChecked, show (4 : Nat) ≤ buf.length by omega]
      have s48 : sliceChecked buf 4 8 = some (sliceL buf 4 8) := by
        simp [sliceChecked, show (8 : Nat) ≤ buf.length by omega]
      have s812 : sliceChecked buf 8 12 = some (sliceL buf 8 12) := by
        simp [sliceChecked, hlen]
      by_cases hr : sliceL buf 0 4 = riffTag
      · simp [detect, detectChecked, h1, h2, h3, h4, h5, h6, h7, h8, hlen, hr, s04, s812]
      · by_cases hf : sliceL buf 4 8 = ftypTag
        · simp [detect, detectChecked, h1, h2, h3, h4, h5, h6, h7, h8, hlen, hr, hf, s04, s48, s812]
        · simp [detect, detectChecked, h1, h2, h3, h4, h5, h6, h7, h8, hlen, hr, hf, s04, s48]
    · simp [detect, detectChecked, h1, h2, h3, h4, h5, h6, h7, h8, hlen]

theorem short_buffer_safe_witness :
    startsWithBytes [0xFF, 0xFB] [0xFF] = false ∧
    ¬(12 ≤ ([0x52, 0x49, 0x46, 0x46] : List Nat).length ∧
        sliceL [0x52, 0x49, 0x46, 0x46] 0 4 = riffTag) ∧
    detectChecked [0x00, 0x01, 0x02, 0x03] = some (detect [0x00, 0x01, 0x02, 0x03]) :=
  ⟨short_buffer_safe.1 [0xFF, 0xFB] [0xFF] (by decide),
   (short_buffer_safe.2.1 [0x52, 0x49, 0x46, 0x46] (by decide)).1,
   short_buffer_safe.2.2 [0x00, 0x01, 0x02, 0x03]⟩

/-- Claim C9 (counterexample): with no current extension, a read error whose
display text is the standard permission-denied message is counted as a
difference, so the claim that detection failure by read error never reports
such a file is false on the code. -/
theorem no_extension_read_error_counted :
    different_extensions (currentExtensionDisplay none) "Permission denied (os error 13)" = true := by
  decide

/-- Claim C9 (amended): with no current extension, the policy reports a
difference for every successfully detected extension, reports none when no
signature matched, and treats a detected string (in particular a read-error
display) as suppressed exactly when it contains No or Err: containing either
substring gives no difference, containing neither always gives a difference. -/
theorem no_extension_policy :
    (∀ (buf : List Nat) (e : String), detect buf = some e →
      different_extensions (currentExtensionDisplay none) e = true) ∧
    different_extensions (currentExtensionDisplay none) "Not detected" = false ∧
    (∀ err : String, (strContains err "No" || strContains err "Err") = true →
      different_extensions (currentExtensionDisplay none) err = false) ∧
    (∀ err : String, (strContains err "No" || strContains err "Err") = false →
      different_extensions (currentExtensionDisplay none) err = true) := by
  refine ⟨?_, by decide, ?_, ?_⟩
  · intro buf e h
    rcases detect_range buf e h with rfl | rfl | rfl | rfl | rfl | rfl | rfl | rfl | rfl | rfl | rfl | rfl <;>
      decide
  · intro err h
    unfold different_extensions
    rw [h]
    simp
  · intro err h
    unfold different_extensions
    split_ifs with h1 h2 h3
    · rw [h] at h1
      exact absurd h1 (by decide)
    · exact absurd h2.1 (by decide)
    · rw [← h3] at h
      exact absurd h (by decide)
    · rfl

theorem no_extension_policy_witness :
    different_extensions (currentExtensionDisplay none) "png" = true ∧
    different_extensions (currentExtensionDisplay none) "Not detected" = false ∧
    different_extensions (currentExtensionDisplay none) "No such file or directory (os error 2)" = false ∧
    different_extensions (currentExtensionDisplay none) "Is a directory (os error 21)" = true :=
  ⟨no_extension_policy.1 [0x89, 0x50, 0x4E, 0x47, 0x0D, 0x0A, 0x1A, 0x0A, 0x00, 0x00, 0x00, 0x0D] "png"
      (by decide),
   no_extension_policy.2.1,
   no_extension_policy.2.2.1 "No such file or directory (os error 2)" (by decide),
   no_extension_policy.2.2.2 "Is a directory (os error 21)" (by decide)⟩

/-- Claim C10: every successful detection is one of the twelve table
extensions, and none of them contains the substring No or Err, so the failure
test of the policy never fires on a genuine detection. -/
theorem detect_result_strings (buf : List Nat) (e : String) (h : detect buf = some e) :
    e ∈ ["gif", "mp3", "png", "pdf", "ogg", "mkv", "flac", "jpg", "webp", "wav", "mov", "mp4"] ∧
    strContains e "No" = false ∧ strContains e "Err" = false := by
  rcases detect_range buf e h with rfl | rfl | rfl | rfl | rfl | rfl | rfl | rfl | rfl | rfl | rfl | rfl <;>
    decide

theorem detect_result_strings_witness :
    "png" ∈ ["gif", "mp3", "png", "pdf", "ogg", "mkv", "flac", "jpg", "webp", "wav", "mov", "mp4"] ∧
    strContains "png" "No" = false ∧ strContains "png" "Err" = false :=
  detect_result_strings [0x89, 0x50, 0x4E, 0x47, 0x0D, 0x0A, 0x1A, 0x0A, 0x00, 0x00, 0x00, 0x0D] "png"
    (by decide)

end Kti
